import Mathlib

/-!
Verification development for the NERA chat backend service (src/main.py).

The development shallowly embeds the two components the claims are about:

* the multi-format text extractor `extract_text_from_file` (here `extract`),
  with the filesystem modelled as a list of existing paths and every external
  library call (file read, PyPDF2, docx2txt, pandas, the UTF-8 codec) modelled
  as an oracle value supplied per call, of type `Except`/`Option` mirroring
  which Python exceptions the call can raise;
* the `/api/chat` endpoint `chat_endpoint` (here `chatEndpoint`) together with
  the response shaping of `process_message_with_files`.

Python `try`/`except` blocks are translated to `match` on the `Except` result
of the guarded computation; a raised exception is an `Except.error` value that
propagates until the nearest translated handler consumes it.
-/

/-- One byte of file content, as produced by Python `bytes`. -/
abbrev Byte := Fin 256

/-- Python `sep.join(xs)`: empty for `[]`, no trailing separator. -/
def joinSep (sep : String) : List String → String
  | [] => ""
  | [s] => s
  | s :: rest => s ++ sep ++ joinSep sep rest

/-- ASCII lowering of a string, modelling Python `str.lower()` on the
ASCII data that the code compares against. -/
def lowerStr (s : String) : String :=
  String.mk (s.data.map Char.toLower)

/-- Characters after the last dot of the list, or `none` when no dot occurs.
Captures `filename.split(chr(46))[-1]` guarded by the membership test. -/
def afterLastDot : List Char → Option (List Char)
  | [] => none
  | c :: rest =>
    match afterLastDot rest with
    | some s => some s
    | none => if c = '.' then some rest else none

/-- The extension dispatch key of `extract_text_from_file` (src/main.py:267):
lower-cased text after the last dot, and `""` when the filename has no dot. -/
def fileExt (filename : String) : String :=
  match afterLastDot filename.data with
  | some s => String.mk (s.map Char.toLower)
  | none => ""

/-- Python `bytes.decode("latin-1")`: every byte maps to the code point of the
same value, so the decode is total. -/
def latin1Decode (bs : List Byte) : String :=
  String.mk (bs.map (fun b => Char.ofNat b.val))

/-- The latin-1 decode as the code sees it: wrapped in `try`/`except`
(src/main.py:317-321) even though it can never raise. -/
def latin1DecodeE (bs : List Byte) : Except String String :=
  Except.ok (latin1Decode bs)

/-- The upload object handed to `extract_text_from_file`: filename and the
declared content type (the latter is only logged by the code). -/
structure FileIn where
  filename : String
  contentType : String
deriving DecidableEq

/-- A parsed pandas DataFrame, reduced to what the code uses: a header row
and the list of data rows. -/
structure Table where
  header : List String
  rows : List (List String)
deriving DecidableEq

/-- Outcomes of the external calls made during one `extract_text_from_file`
run.  An `Except.error` value is the message of the Python exception the call
raised; `utf8` returns `none` exactly when `bytes.decode("utf-8")` raises
`UnicodeDecodeError`.  `tempPath` is the fresh name chosen by
`tempfile.NamedTemporaryFile`; `writeRes` is the outcome of
`temp_file.write(content)` (src/main.py:283) and `unlinkRes` the outcome of
`os.unlink` (src/main.py:295), both of which the temp-file handling treats as
fallible system calls. -/
structure Oracles where
  readRes : Except String (List Byte)
  pdfPages : List Byte → Except String (List String)
  docxRes : String → Except String String
  csvParse : List Byte → Except String Table
  excelParse : List Byte → Except String Table
  utf8 : List Byte → Option String
  tempPath : String
  writeRes : Except String Unit
  unlinkRes : String → Except String Unit

/-- One row of the rendered table: the pipe format `DataFrame.to_markdown`
emits (column padding is immaterial to the claims and omitted). -/
def renderRow (cells : List String) : String :=
  "| " ++ joinSep " | " cells ++ " |"

/-- `DataFrame.to_markdown(index=False)` on a frame with the given header and
data rows: header row, separator row, then the data rows. -/
def renderTable (hdr : List String) (rows : List (List String)) : String :=
  joinSep "\n" (renderRow hdr :: renderRow (hdr.map (fun _ => "---")) :: rows.map renderRow)

/-- The extension dispatch of `extract_text_from_file` (src/main.py:270-325),
running against filesystem `fs` (the list of existing paths).  Each branch
translates one `elif` arm including its local `try`/`except`.  In the
`docx`/`doc` arm: `NamedTemporaryFile(delete=False)` creates the temp path,
then `temp_file.write(content)` (src/main.py:283) may raise — in that case the
`with` block only closes the handle, the file persists on disk, the later
`try`/`finally` is never entered, and the exception escapes this arm to the
generic inner handler; on a successful write, `docx2txt.process` runs under
the `try` whose `finally` (src/main.py:292-297) checks existence and attempts
`os.unlink`, itself wrapped in `try`/`except` that swallows an unlink failure
and leaves the file in place. -/
def extractDispatch (fn ext : String) (content : List Byte) (o : Oracles)
    (fs : List String) : Except String String × List String :=
  if ext = "pdf" then
    (match o.pdfPages content with
      | Except.ok pages =>
        Except.ok ("[PDF Content - " ++ fn ++ "]\n" ++ joinSep "\n" pages)
      | Except.error _ =>
        Except.ok ("[Could not extract text from PDF: " ++ fn ++ "]"),
     fs)
  else if ext = "docx" ∨ ext = "doc" then
    match o.writeRes with
    | Except.error e => (Except.error e, o.tempPath :: fs)
    | Except.ok _ =>
      (match o.docxRes o.tempPath with
        | Except.ok text =>
          Except.ok ("[Document Content - " ++ fn ++ "]\n" ++ text)
        | Except.error _ =>
          Except.ok ("[Could not extract text from Word document: " ++ fn ++ "]"),
       if (o.tempPath :: fs).contains o.tempPath then
         match o.unlinkRes o.tempPath with
         | Except.ok _ => (o.tempPath :: fs).filter (fun q => q != o.tempPath)
         | Except.error _ => o.tempPath :: fs
       else o.tempPath :: fs)
  else if ext = "csv" ∨ ext = "xlsx" ∨ ext = "xls" then
    (match (if ext = "csv" then o.csvParse content else o.excelParse content) with
      | Except.ok t =>
        Except.ok ("[Data from " ++ fn ++ "]\n" ++ renderTable t.header (t.rows.take 10))
      | Except.error _ =>
        Except.ok ("[Could not extract data from spreadsheet: " ++ fn ++ "]"),
     fs)
  else if ext = "txt" then
    (match o.utf8 content with
      | some s => Except.ok ("[Text Content - " ++ fn ++ "]\n" ++ s)
      | none =>
        match latin1DecodeE content with
        | Except.ok s => Except.ok ("[Text Content - " ++ fn ++ "]\n" ++ s)
        | Except.error _ =>
          Except.ok ("[Could not decode text file: " ++ fn ++ "]"),
     fs)
  else
    (Except.ok ("[File " ++ fn ++ " has an unsupported format (." ++ ext ++
      "). Supported formats: PDF, DOCX, DOC, CSV, XLSX, XLS, TXT]"),
     fs)

/-- The inner `try` of `extract_text_from_file` (src/main.py:270-329): the
dispatch, with its generic handler turning an escaped exception into the
bracketed processing-error diagnostic. -/
def extractInner (fn ext : String) (content : List Byte) (o : Oracles)
    (fs : List String) : Except String String × List String :=
  match extractDispatch fn ext content o fs with
  | (Except.error e, fs2) =>
    (Except.ok ("[Error processing file " ++ fn ++ ": " ++ e ++ "]"), fs2)
  | r => r

/-- The body of the outer `try` of `extract_text_from_file`
(src/main.py:259-329): read the upload, return the empty-file diagnostic on
empty bytes, otherwise dispatch on the extension. -/
def extractTryBody (f : FileIn) (o : Oracles) (fs : List String) :
    Except String String × List String :=
  match o.readRes with
  | Except.error e => (Except.error e, fs)
  | Except.ok content =>
    if content.isEmpty then
      (Except.ok ("[Empty file: " ++ f.filename ++ "]"), fs)
    else
      extractInner f.filename (fileExt f.filename) content o fs

/-- `extract_text_from_file` (src/main.py:257-338): the outer handler
(src/main.py:331-333) converts any escaped exception into the read-failure
diagnostic.  The trailing `finally` only rewinds the upload stream and has no
effect on the modelled state. -/
def extract (f : FileIn) (o : Oracles) (fs : List String) :
    Except String String × List String :=
  match extractTryBody f o fs with
  | (Except.error _, fs2) =>
    (Except.ok ("[Failed to read file: " ++ f.filename ++ "]"), fs2)
  | r => r

/-- The text `extract` produces for a file (the exceptional component is dead,
as proved below, so the error arm is never taken). -/
def extractedText (f : FileIn) (o : Oracles) : String :=
  match (extract f o []).1 with
  | Except.ok s => s
  | Except.error e => e

/-- The loop body of `process_message_with_files` (src/main.py:166-173) for a
single file: the extracted text behind a `File: <filename>` header, with the
per-file `except` arm turning a raised exception into a bracketed error. -/
def fragmentOf (o : FileIn → Oracles) (f : FileIn) : String :=
  match (extract f (o f) []).1 with
  | Except.ok s => "File: " ++ f.filename ++ "\n" ++ s
  | Except.error e => "[Error processing file " ++ f.filename ++ ": " ++ e ++ "]"

/-- The extraction loop of `process_message_with_files` (src/main.py:166-173):
per-file fragments in input order, threading the filesystem through the
successive `extract` calls. -/
def buildFileContents (o : FileIn → Oracles) :
    List FileIn → List String → List String × List String
  | [], fs => ([], fs)
  | f :: rest, fs =>
    ((match (extract f (o f) fs).1 with
       | Except.ok s => "File: " ++ f.filename ++ "\n" ++ s
       | Except.error e =>
         "[Error processing file " ++ f.filename ++ ": " ++ e ++ "]") ::
       (buildFileContents o rest (extract f (o f) fs).2).1,
     (buildFileContents o rest (extract f (o f) fs).2).2)

/-- The `full_message` assembly of `process_message_with_files`
(src/main.py:176-179): the user message, then the joined fragments when any
file was attached. -/
def fullMessage (message : String) (o : FileIn → Oracles) (files : List FileIn)
    (fs : List String) : String :=
  if (buildFileContents o files fs).1.isEmpty then message
  else
    message ++ "\n\nAttached files content:\n" ++
      joinSep "\n\n" (buildFileContents o files fs).1

/-- The `usage` object of an OpenRouter response; `total_tokens` is `none`
when the key is absent. -/
structure Usage where
  total_tokens : Option Nat
deriving DecidableEq

/-- The JSON body of a provider response, reduced to the fields
`process_message_with_files` reads: the message contents of `choices`, and
the optional `usage` object. -/
structure ProviderResponse where
  choices : List String
  usage : Option Usage
deriving DecidableEq

/-- The dictionary `process_message_with_files` returns; `model` and
`tokens_used` are `none` when the fallback dictionary omits the keys. -/
structure FilesResult where
  response : String
  model : Option String
  tokens_used : Option Nat
deriving DecidableEq

/-- The fallback text of src/main.py:242. -/
def fallbackText : String :=
  "I received your files but encountered an issue processing them. Please try again."

/-- The response shaping of `process_message_with_files` (src/main.py:234-242):
first choice plus model and token count when a choice exists,
`response_data.get(chr(117)...)` defaulting missing usage data to 0; the bare
fallback dictionary otherwise. -/
def processFilesResponse (model : String) (rd : ProviderResponse) : FilesResult :=
  match rd.choices with
  | c :: _ =>
    { response := c
      model := some model
      tokens_used := some (match rd.usage with
        | some u => u.total_tokens.getD 0
        | none => 0) }
  | [] => { response := fallbackText, model := none, tokens_used := none }

/-- `leadsWith pat s` holds when `pat` begins the list `s` (helper for the
Python substring test). -/
def leadsWith : List Char → List Char → Bool
  | [], _ => true
  | _ :: _, [] => false
  | a :: as, b :: bs => a == b && leadsWith as bs

/-- `hasSub pat s` holds when `pat` occurs contiguously inside `s`: the
Python `pat in s` substring test. -/
def hasSub (pat : List Char) : List Char → Bool
  | [] => leadsWith pat []
  | c :: rest => leadsWith pat (c :: rest) || hasSub pat rest

/-- Python `pat in s` on strings. -/
def strContainsSub (s pat : String) : Bool :=
  hasSub pat.data s.data

/-- A chat message as in the pydantic `Message` model (src/main.py:44-46). -/
structure Message where
  role : String
  content : String
deriving DecidableEq

/-- The exceptions that can cross the `try` of `chat_endpoint`: the
`HTTPException` raised for an empty message list, and the `ValueError` that
`generate_response` raises on any provider failure. -/
inductive ChatExc
  | httpExc (status : Nat) (detail : String)
  | valueErr (msg : String)
deriving DecidableEq

/-- Python `str(e)` for the exceptions above: starlette renders an
`HTTPException` as `"<status>: <detail>"`, a `ValueError` as its message. -/
def chatExcStr : ChatExc → String
  | ChatExc.httpExc s d => Nat.repr s ++ ": " ++ d
  | ChatExc.valueErr m => m

/-- The fixed attribution string of src/main.py:391. -/
def attributionText : String := "I was created by Henshaw Michael Ewa."

/-- The body of the `try` in `chat_endpoint` (src/main.py:375-403).  The
`provider` argument is the outcome of `generate_response`: the reply content,
or the message of the `ValueError` it raises on failure.  The second component
records whether the provider was called. -/
def chatTryBody (msgs : List Message) (provider : Except String String) :
    Except ChatExc Message × Bool :=
  match msgs with
  | [] => (Except.error (ChatExc.httpExc 400 "No messages provided"), false)
  | m :: rest =>
    if strContainsSub (lowerStr ((m :: rest).getLastD ⟨"", ""⟩).content) "who built you"
        || strContainsSub (lowerStr ((m :: rest).getLastD ⟨"", ""⟩).content) "who created you" then
      (Except.ok ⟨"assistant", attributionText⟩, false)
    else
      match provider with
      | Except.ok content => (Except.ok ⟨"assistant", content⟩, true)
      | Except.error msg => (Except.error (ChatExc.valueErr msg), true)

/-- What the framework sends back for one `/api/chat` request: the response
model on a normal return, or the status and detail of a raised
`HTTPException`. -/
inductive HttpResult
  | ok (message : Message)
  | err (status : Nat) (detail : String)
deriving DecidableEq

/-- `chat_endpoint` (src/main.py:370-410): the `try` body, with the
`except Exception` arm (src/main.py:405-410) re-raising ANY exception —
including the `HTTPException(400)` for an empty message list — as
`HTTPException(500, str(e))`. -/
def chatEndpoint (msgs : List Message) (provider : Except String String) :
    HttpResult × Bool :=
  match chatTryBody msgs provider with
  | (Except.ok m, called) => (HttpResult.ok m, called)
  | (Except.error e, called) => (HttpResult.err 500 (chatExcStr e), called)

/-- The most recent message of role `user`, the notion the specification
phrases the attribution rule with; used only to state that claim. -/
def lastUserMessage (msgs : List Message) : Option Message :=
  (msgs.filter (fun m => m.role == "user")).getLast?

/-- A base oracle bundle for concrete evaluations: empty read, every
external decoder failing, the UTF-8 codec rejecting. -/
def oBase : Oracles where
  readRes := Except.ok []
  pdfPages := fun _ => Except.error "pdf failure"
  docxRes := fun _ => Except.error "docx failure"
  csvParse := fun _ => Except.error "csv failure"
  excelParse := fun _ => Except.error "excel failure"
  utf8 := fun _ => none
  tempPath := "/tmp/tmpabc123.docx"
  writeRes := Except.ok ()
  unlinkRes := fun _ => Except.ok ()

/-- A concrete parsed frame with two columns and twelve data rows, used for
concrete evaluations. -/
def tableW : Table :=
  ⟨["area", "price"],
   [["a1", "1"], ["a2", "2"], ["a3", "3"], ["a4", "4"], ["a5", "5"],
    ["a6", "6"], ["a7", "7"], ["a8", "8"], ["a9", "9"], ["a10", "10"],
    ["a11", "11"], ["a12", "12"]]⟩

/-- Oracle bundle whose csv parse succeeds with `tableW`. -/
def oCsv : Oracles :=
  { oBase with readRes := Except.ok [97], csvParse := fun _ => Except.ok tableW }

/-- Oracle bundle with nonempty bytes and a failing Word extractor. -/
def oDocxFail : Oracles :=
  { oBase with readRes := Except.ok [1] }

/-- Oracle bundle with nonempty bytes and a succeeding Word extractor. -/
def oDocxOk : Oracles :=
  { oBase with
    readRes := Except.ok [1],
    docxRes := fun _ => Except.ok "Lease agreement text" }

/-- Oracle bundle where the Word extraction succeeds but the `os.unlink` in
the `finally` block raises, which the code swallows after logging. -/
def oUnlinkFail : Oracles :=
  { oBase with
    readRes := Except.ok [1],
    docxRes := fun _ => Except.ok "Lease agreement text",
    unlinkRes := fun _ => Except.error "Operation not permitted" }

/-! ### Helper lemmas -/

/-- The inner handler always returns normally: whatever the dispatch produced
— a value or an escaped exception such as a temp-file write failure — the
generic handler of src/main.py:327-329 turns it into a string. -/
theorem extractInner_ok (fn ext : String) (content : List Byte) (o : Oracles)
    (fs : List String) : ∃ s, (extractInner fn ext content o fs).1 = Except.ok s := by
  unfold extractInner
  rcases hd : extractDispatch fn ext content o fs with ⟨r1, g1⟩
  cases r1 with
  | ok s2 => exact ⟨s2, rfl⟩
  | error e => exact ⟨_, rfl⟩

/-- The text component of the dispatch does not depend on the incoming
filesystem state. -/
theorem extractDispatch_fst_fs (fn ext : String) (content : List Byte) (o : Oracles)
    (fs fs2 : List String) :
    (extractDispatch fn ext content o fs).1 = (extractDispatch fn ext content o fs2).1 := by
  unfold extractDispatch
  split_ifs <;> try rfl
  all_goals cases hw : o.writeRes <;> rfl

/-- The inner handler also returns normally, with the same text regardless of
the filesystem state. -/
theorem extractInner_fst_fs (fn ext : String) (content : List Byte) (o : Oracles)
    (fs fs2 : List String) :
    (extractInner fn ext content o fs).1 = (extractInner fn ext content o fs2).1 := by
  unfold extractInner
  have h := extractDispatch_fst_fs fn ext content o fs fs2
  rcases hd : extractDispatch fn ext content o fs with ⟨r1, g1⟩
  rcases hd2 : extractDispatch fn ext content o fs2 with ⟨r2, g2⟩
  rw [hd, hd2] at h
  simp only at h
  subst h
  cases r1 <;> rfl

/-- The extracted text does not depend on the filesystem state `extract` runs
against. -/
theorem extract_fst_fs (f : FileIn) (o : Oracles) (fs fs2 : List String) :
    (extract f o fs).1 = (extract f o fs2).1 := by
  unfold extract extractTryBody
  cases o.readRes with
  | error e => rfl
  | ok content =>
    by_cases hc : content.isEmpty
    · simp only [hc, if_true]
    · simp only [hc, if_false]
      have h := extractInner_fst_fs f.filename (fileExt f.filename) content o fs fs2
      rcases hi : extractInner f.filename (fileExt f.filename) content o fs with ⟨r1, g1⟩
      rcases hi2 : extractInner f.filename (fileExt f.filename) content o fs2 with ⟨r2, g2⟩
      rw [hi, hi2] at h
      simp only at h
      subst h
      cases r1 <;> rfl

/-- `extract` always returns normally: every internal failure has been turned
into a diagnostic string by one of the translated handlers. -/
theorem extract_ok (f : FileIn) (o : Oracles) (fs : List String) :
    ∃ s, (extract f o fs).1 = Except.ok s := by
  unfold extract extractTryBody
  cases o.readRes with
  | error e => exact ⟨_, rfl⟩
  | ok content =>
    by_cases hc : content.isEmpty
    · simp only [hc, if_true]
      exact ⟨_, rfl⟩
    · simp only [hc, if_false]
      obtain ⟨s, hs⟩ := extractInner_ok f.filename (fileExt f.filename) content o fs
      rcases hi : extractInner f.filename (fileExt f.filename) content o fs with ⟨r1, g1⟩
      rw [hi] at hs
      simp only at hs
      subst hs
      exact ⟨s, rfl⟩

/-- On a successful read of nonempty bytes, `extract` is exactly the inner
dispatch-plus-handler: the outer read-failure handler does not fire. -/
theorem extract_eq_inner (f : FileIn) (o : Oracles) (fs : List String)
    (content : List Byte) (hread : o.readRes = Except.ok content) (hne : content ≠ []) :
    extract f o fs = extractInner f.filename (fileExt f.filename) content o fs := by
  have hbody : extractTryBody f o fs =
      extractInner f.filename (fileExt f.filename) content o fs := by
    unfold extractTryBody
    rw [hread]
    cases content with
    | nil => exact absurd rfl hne
    | cons b bs => rfl
  unfold extract
  rw [hbody]
  obtain ⟨s, hs⟩ := extractInner_ok f.filename (fileExt f.filename) content o fs
  rcases hi : extractInner f.filename (fileExt f.filename) content o fs with ⟨r1, g1⟩
  rw [hi] at hs
  cases r1 with
  | ok s2 => rfl
  | error e => simp at hs

/-- The `txt` arm of the dispatch, with the dead latin-1 failure handler
already reduced away (the latin-1 decode is total). -/
theorem extractDispatch_txt_eq (fn : String) (content : List Byte) (o : Oracles)
    (fs : List String) :
    extractDispatch fn "txt" content o fs =
      ((match o.utf8 content with
        | some s => Except.ok ("[Text Content - " ++ fn ++ "]\n" ++ s)
        | none => Except.ok ("[Text Content - " ++ fn ++ "]\n" ++ latin1Decode content)),
       fs) := by
  unfold extractDispatch
  rw [if_neg (by decide), if_neg (by decide), if_neg (by decide), if_pos rfl]
  cases hu : o.utf8 content <;> rfl

/-- The `txt` arm after the inner handler: identical to the dispatch, which
never raises on this arm. -/
theorem extractInner_txt_eq (fn : String) (content : List Byte) (o : Oracles)
    (fs : List String) :
    extractInner fn "txt" content o fs =
      ((match o.utf8 content with
        | some s => Except.ok ("[Text Content - " ++ fn ++ "]\n" ++ s)
        | none => Except.ok ("[Text Content - " ++ fn ++ "]\n" ++ latin1Decode content)),
       fs) := by
  unfold extractInner
  rw [extractDispatch_txt_eq]
  cases hu : o.utf8 content <;> rfl

/-- The `docx`/`doc` arm of the dispatch: a failed temp-file write escapes
with the file left on disk and the `finally` never entered; after a
successful write the existence check in the `finally` succeeds and the
unlink, when it does not itself fail, filters the temp path out of the
filesystem — a failed unlink is swallowed and leaves the path. -/
theorem extractDispatch_word_eq (fn ext : String) (content : List Byte) (o : Oracles)
    (fs : List String) (hext : ext = "docx" ∨ ext = "doc") :
    extractDispatch fn ext content o fs =
      match o.writeRes with
      | Except.error e => (Except.error e, o.tempPath :: fs)
      | Except.ok _ =>
        ((match o.docxRes o.tempPath with
          | Except.ok text => Except.ok ("[Document Content - " ++ fn ++ "]\n" ++ text)
          | Except.error _ =>
            Except.ok ("[Could not extract text from Word document: " ++ fn ++ "]")),
         match o.unlinkRes o.tempPath with
         | Except.ok _ => (o.tempPath :: fs).filter (fun q => q != o.tempPath)
         | Except.error _ => o.tempPath :: fs) := by
  unfold extractDispatch
  have h1 : ¬ext = "pdf" := by rcases hext with h | h <;> subst h <;> decide
  rw [if_neg h1, if_pos hext]
  cases hw : o.writeRes with
  | error e => rfl
  | ok u =>
    rw [if_pos (by simp : (o.tempPath :: fs).contains o.tempPath = true)]

/-- The `docx`/`doc` arm after the inner handler: a write failure becomes the
bracketed processing-error diagnostic while the temp file stays in the
filesystem. -/
theorem extractInner_word_eq (fn ext : String) (content : List Byte) (o : Oracles)
    (fs : List String) (hext : ext = "docx" ∨ ext = "doc") :
    extractInner fn ext content o fs =
      match o.writeRes with
      | Except.error e =>
        (Except.ok ("[Error processing file " ++ fn ++ ": " ++ e ++ "]"), o.tempPath :: fs)
      | Except.ok _ =>
        ((match o.docxRes o.tempPath with
          | Except.ok text => Except.ok ("[Document Content - " ++ fn ++ "]\n" ++ text)
          | Except.error _ =>
            Except.ok ("[Could not extract text from Word document: " ++ fn ++ "]")),
         match o.unlinkRes o.tempPath with
         | Except.ok _ => (o.tempPath :: fs).filter (fun q => q != o.tempPath)
         | Except.error _ => o.tempPath :: fs) := by
  unfold extractInner
  rw [extractDispatch_word_eq fn ext content o fs hext]
  cases hw : o.writeRes with
  | error e => rfl
  | ok u => cases hd : o.docxRes o.tempPath <;> rfl

/-- The `csv`/`xlsx`/`xls` arm of the dispatch. -/
theorem extractDispatch_sheet_eq (fn ext : String) (content : List Byte) (o : Oracles)
    (fs : List String) (hext : ext = "csv" ∨ ext = "xlsx" ∨ ext = "xls") :
    extractDispatch fn ext content o fs =
      ((match (if ext = "csv" then o.csvParse content else o.excelParse content) with
        | Except.ok t =>
          Except.ok ("[Data from " ++ fn ++ "]\n" ++ renderTable t.header (t.rows.take 10))
        | Except.error _ =>
          Except.ok ("[Could not extract data from spreadsheet: " ++ fn ++ "]")),
       fs) := by
  unfold extractDispatch
  have h1 : ¬ext = "pdf" := by rcases hext with h | h | h <;> subst h <;> decide
  have h2 : ¬(ext = "docx" ∨ ext = "doc") := by
    rcases hext with h | h | h <;> subst h <;> decide
  rw [if_neg h1, if_neg h2, if_pos hext]

/-- The `csv`/`xlsx`/`xls` arm after the inner handler: identical to the
dispatch, which never raises on this arm. -/
theorem extractInner_sheet_eq (fn ext : String) (content : List Byte) (o : Oracles)
    (fs : List String) (hext : ext = "csv" ∨ ext = "xlsx" ∨ ext = "xls") :
    extractInner fn ext content o fs =
      ((match (if ext = "csv" then o.csvParse content else o.excelParse content) with
        | Except.ok t =>
          Except.ok ("[Data from " ++ fn ++ "]\n" ++ renderTable t.header (t.rows.take 10))
        | Except.error _ =>
          Except.ok ("[Could not extract data from spreadsheet: " ++ fn ++ "]")),
       fs) := by
  unfold extractInner
  rw [extractDispatch_sheet_eq fn ext content o fs hext]
  cases hp : (if ext = "csv" then o.csvParse content else o.excelParse content) <;> rfl

/-! ### Claim theorems -/

/-- Claim C2: `extract_text_from_file` is total — for every filename, content
type, read outcome and decoder outcome it returns normally, the value being
one string (the extracted text or a diagnostic); no exception reaches the
caller. -/
theorem extract_never_raises (f : FileIn) (o : Oracles) (fs : List String) :
    ∃ s, (extract f o fs).1 = Except.ok s :=
  extract_ok f o fs

/-- Claim C3: when the file bytes read back empty, `extract_text_from_file`
returns exactly the bracketed empty-file diagnostic, whatever the extension,
and touches no filesystem state — the check precedes the extension
dispatch. -/
theorem extract_empty_bytes (f : FileIn) (o : Oracles) (fs : List String)
    (hread : o.readRes = Except.ok []) :
    (extract f o fs).1 = Except.ok ("[Empty file: " ++ f.filename ++ "]") ∧
    (extract f o fs).2 = fs := by
  unfold extract extractTryBody
  rw [hread]
  exact ⟨rfl, rfl⟩

/-- Witness for C3 at a concrete pdf-named file with empty bytes. -/
theorem extract_empty_bytes_witness :
    oBase.readRes = Except.ok [] ∧
    (extract ⟨"report.pdf", "application/pdf"⟩ oBase []).1 =
      Except.ok ("[Empty file: " ++ "report.pdf" ++ "]") ∧
    (extract ⟨"report.pdf", "application/pdf"⟩ oBase []).2 = [] :=
  ⟨rfl, (extract_empty_bytes ⟨"report.pdf", "application/pdf"⟩ oBase [] rfl).1,
    (extract_empty_bytes ⟨"report.pdf", "application/pdf"⟩ oBase [] rfl).2⟩

/-- Claim C1 (code bug record): on an empty `messages` list, `chat_endpoint`
raises `HTTPException(400)`, but its own `except Exception` arm catches that
exception and re-raises it as a 500, so the request answers HTTP 500 with
detail `400: No messages provided` — not the 400 the specification states.
The provider is indeed never called. -/
theorem chat_empty_messages_gives_500 (provider : Except String String) :
    chatEndpoint [] provider = (HttpResult.err 500 "400: No messages provided", false) := by
  rfl

/-- Claim C4: on a `txt` file, the bytes are decoded as UTF-8 first; if that
decode fails the latin-1 retry is used; either successful decode is returned
behind the `[Text Content - <filename>]` prefix. -/
theorem txt_utf8_then_latin1 (f : FileIn) (o : Oracles) (fs : List String)
    (content : List Byte) (hread : o.readRes = Except.ok content)
    (hne : content ≠ []) (hext : fileExt f.filename = "txt") :
    (∀ s, o.utf8 content = some s →
      (extract f o fs).1 = Except.ok ("[Text Content - " ++ f.filename ++ "]\n" ++ s)) ∧
    (o.utf8 content = none →
      (extract f o fs).1 =
        Except.ok ("[Text Content - " ++ f.filename ++ "]\n" ++ latin1Decode content)) := by
  have hd := extract_eq_inner f o fs content hread hne
  rw [hext] at hd
  rw [hd, extractInner_txt_eq f.filename content o fs]
  constructor
  · intro s hs
    rw [hs]
  · intro hn
    rw [hn]

/-- Witness for C4: a one-byte latin-1 file (byte 255) rejected by the UTF-8
codec decodes through the fallback, and the same file with an accepting UTF-8
codec uses the direct path. -/
theorem txt_utf8_then_latin1_witness :
    fileExt "notes.txt" = "txt" ∧
    (extract ⟨"notes.txt", "text/plain"⟩
        { oBase with readRes := Except.ok [255] } []).1 =
      Except.ok ("[Text Content - " ++ "notes.txt" ++ "]\n" ++ latin1Decode [255]) ∧
    (extract ⟨"notes.txt", "text/plain"⟩
        { oBase with readRes := Except.ok [65], utf8 := fun _ => some "A" } []).1 =
      Except.ok ("[Text Content - " ++ "notes.txt" ++ "]\n" ++ "A") :=
  ⟨by decide,
   (txt_utf8_then_latin1 ⟨"notes.txt", "text/plain"⟩
      { oBase with readRes := Except.ok [255] } [] [255] rfl (by decide) (by decide)).2 rfl,
   (txt_utf8_then_latin1 ⟨"notes.txt", "text/plain"⟩
      { oBase with readRes := Except.ok [65], utf8 := fun _ => some "A" } [] [65] rfl
      (by decide) (by decide)).1 "A" rfl⟩

/-- Claim C10: on a `txt` file the decode-failure diagnostic is unreachable —
the latin-1 decode accepts every byte sequence, so the result always carries
the `[Text Content - <filename>]` prefix, via latin-1 whenever UTF-8
rejects. -/
theorem txt_decode_diagnostic_unreachable (f : FileIn) (o : Oracles) (fs : List String)
    (content : List Byte) (hread : o.readRes = Except.ok content)
    (hne : content ≠ []) (hext : fileExt f.filename = "txt") :
    latin1DecodeE content = Except.ok (latin1Decode content) ∧
    (o.utf8 content = none →
      (extract f o fs).1 =
        Except.ok ("[Text Content - " ++ f.filename ++ "]\n" ++ latin1Decode content)) ∧
    (∃ s, (extract f o fs).1 =
      Except.ok ("[Text Content - " ++ f.filename ++ "]\n" ++ s)) := by
  have hd := extract_eq_inner f o fs content hread hne
  rw [hext] at hd
  rw [hd, extractInner_txt_eq f.filename content o fs]
  refine ⟨rfl, ?_, ?_⟩
  · intro hn
    rw [hn]
  · cases hu : o.utf8 content with
    | some s => exact ⟨s, rfl⟩
    | none => exact ⟨latin1Decode content, rfl⟩

/-- Witness for C10: every byte from 0 to 255 occurs in this content, the
UTF-8 codec rejects it, and the result still carries the text prefix. -/
theorem txt_decode_diagnostic_unreachable_witness :
    fileExt "dump.TXT" = "txt" ∧
    (extract ⟨"dump.TXT", "text/plain"⟩
        { oBase with readRes := Except.ok [0, 127, 128, 255] } []).1 =
      Except.ok ("[Text Content - " ++ "dump.TXT" ++ "]\n" ++ latin1Decode [0, 127, 128, 255]) :=
  ⟨by decide,
   (txt_decode_diagnostic_unreachable ⟨"dump.TXT", "text/plain"⟩
      { oBase with readRes := Except.ok [0, 127, 128, 255] } [] [0, 127, 128, 255]
      rfl (by decide) (by decide)).2.1 rfl⟩

/-- Claim C5: on a successfully parsed `csv`/`xlsx`/`xls` file the rendered
table covers exactly the first ten data rows of the parsed frame — a prefix
of the rows of length at most ten — behind the `[Data from <filename>]`
prefix. -/
theorem spreadsheet_first_ten_rows (f : FileIn) (o : Oracles) (fs : List String)
    (content : List Byte) (t : Table)
    (hread : o.readRes = Except.ok content) (hne : content ≠ [])
    (hext : fileExt f.filename = "csv" ∨ fileExt f.filename = "xlsx" ∨
      fileExt f.filename = "xls")
    (hparse : (if fileExt f.filename = "csv" then o.csvParse content
      else o.excelParse content) = Except.ok t) :
    (extract f o fs).1 =
      Except.ok ("[Data from " ++ f.filename ++ "]\n" ++
        renderTable t.header (t.rows.take 10)) ∧
    (t.rows.take 10).length ≤ 10 ∧
    t.rows.take 10 ++ t.rows.drop 10 = t.rows := by
  refine ⟨?_, ?_, List.take_append_drop 10 t.rows⟩
  · rw [extract_eq_inner f o fs content hread hne,
      extractInner_sheet_eq f.filename (fileExt f.filename) content o fs hext, hparse]
  · rw [List.length_take]
    exact min_le_left 10 t.rows.length

/-- Witness for C5: a csv whose parse yields twelve data rows renders only the
first ten. -/
theorem spreadsheet_first_ten_rows_witness :
    (extract ⟨"listings.csv", "text/csv"⟩ oCsv []).1 =
      Except.ok ("[Data from " ++ "listings.csv" ++ "]\n" ++
        renderTable tableW.header (tableW.rows.take 10)) ∧
    (tableW.rows.take 10).length ≤ 10 :=
  ⟨(spreadsheet_first_ten_rows ⟨"listings.csv", "text/csv"⟩ oCsv [] [97] tableW
      rfl (by decide) (Or.inl (by decide)) (by rw [if_pos (by decide)]; rfl)).1,
   (spreadsheet_first_ten_rows ⟨"listings.csv", "text/csv"⟩ oCsv [] [97] tableW
      rfl (by decide) (Or.inl (by decide)) (by rw [if_pos (by decide)]; rfl)).2.1⟩

/-- Claim C6 counterexample: a docx file whose bytes are written and whose
Word extraction succeeds, but whose `os.unlink` raises.  The `except` around
it (src/main.py:294-297) swallows the failure after logging, so the temporary
file still exists on the filesystem after `extract` returns — deletion is
attempted, not guaranteed on every exit path.  (A `temp_file.write` failure
at src/main.py:283 leaks the file the same way: the `finally` is never
entered.) -/
theorem docx_temp_survives_unlink_failure :
    fileExt "contract.docx" = "docx" ∧
    oUnlinkFail.tempPath ∈
      (extract ⟨"contract.docx", "application/msword"⟩ oUnlinkFail []).2 := by
  refine ⟨by decide, by decide⟩

/-- Claim C6 (amended): on a `docx`/`doc` file the deletion of the temporary
file is attempted on both the success and the failure exit of the Word
extractor, and whenever the temp-file write and the unlink system calls
themselves succeed, the temp file no longer exists on the filesystem after
`extract` returns, whether the Word extraction succeeded or failed (the
extractor oracle is universally quantified over both outcomes). -/
theorem docx_temp_removed_when_unlink_ok (f : FileIn) (o : Oracles) (fs : List String)
    (content : List Byte) (hread : o.readRes = Except.ok content) (hne : content ≠ [])
    (hext : fileExt f.filename = "docx" ∨ fileExt f.filename = "doc")
    (hw : o.writeRes = Except.ok ()) (hu : o.unlinkRes o.tempPath = Except.ok ()) :
    o.tempPath ∉ (extract f o fs).2 := by
  rw [extract_eq_inner f o fs content hread hne,
    extractInner_word_eq f.filename (fileExt f.filename) content o fs hext, hw, hu]
  simp [List.mem_filter]

/-- Witness for the amended C6: concrete docx extractions with succeeding
write and unlink, one failing and one succeeding Word extraction, both leave
the filesystem without the temp path. -/
theorem docx_temp_removed_when_unlink_ok_witness :
    fileExt "contract.docx" = "docx" ∧
    oDocxFail.tempPath ∉
      (extract ⟨"contract.docx", "application/msword"⟩ oDocxFail []).2 ∧
    oDocxOk.tempPath ∉
      (extract ⟨"contract.docx", "application/msword"⟩ oDocxOk []).2 :=
  ⟨by decide,
   docx_temp_removed_when_unlink_ok ⟨"contract.docx", "application/msword"⟩ oDocxFail []
     [1] rfl (by decide) (Or.inl (by decide)) rfl rfl,
   docx_temp_removed_when_unlink_ok ⟨"contract.docx", "application/msword"⟩ oDocxOk []
     [1] rfl (by decide) (Or.inl (by decide)) rfl rfl⟩

/-- The fragment list built by the extraction loop is the map of the per-file
fragment over the input files, independent of the threaded filesystem. -/
theorem buildFileContents_fst (o : FileIn → Oracles) (files : List FileIn)
    (fs : List String) :
    (buildFileContents o files fs).1 = files.map (fragmentOf o) := by
  induction files generalizing fs with
  | nil => rfl
  | cons f rest ih =>
    have hfs : (buildFileContents o (f :: rest) fs).1 =
        (match (extract f (o f) fs).1 with
          | Except.ok s => "File: " ++ f.filename ++ "\n" ++ s
          | Except.error e =>
            "[Error processing file " ++ f.filename ++ ": " ++ e ++ "]") ::
          (buildFileContents o rest (extract f (o f) fs).2).1 := rfl
    rw [hfs, ih, extract_fst_fs f (o f) fs [], List.map_cons]
    congr 1

/-- Since extraction never raises, every fragment is the `File:` header
followed by the extracted text. -/
theorem fragmentOf_eq (o : FileIn → Oracles) (f : FileIn) :
    fragmentOf o f = "File: " ++ f.filename ++ "\n" ++ extractedText f (o f) := by
  unfold fragmentOf extractedText
  obtain ⟨s, hs⟩ := extract_ok f (o f) []
  rw [hs]

/-- Claim C7: `process_message_with_files` builds one fragment per attached
file, the i-th fragment being the `File:` block of the i-th file, and joins
them into the prompt with blank-line separators in input order. -/
theorem files_order_preserved (m : String) (o : FileIn → Oracles)
    (files : List FileIn) (fs : List String) :
    ((buildFileContents o files fs).1).length = files.length ∧
    (∀ i : Nat, ((buildFileContents o files fs).1)[i]? =
      (files[i]?).map (fun f => "File: " ++ f.filename ++ "\n" ++ extractedText f (o f))) ∧
    (files ≠ [] →
      fullMessage m o files fs =
        m ++ "\n\nAttached files content:\n" ++
          joinSep "\n\n" (buildFileContents o files fs).1) := by
  have hmap : (fun f => "File: " ++ f.filename ++ "\n" ++ extractedText f (o f)) =
      fragmentOf o := by
    funext f
    rw [fragmentOf_eq]
  refine ⟨?_, ?_, ?_⟩
  · rw [buildFileContents_fst, List.length_map]
  · intro i
    rw [buildFileContents_fst, hmap, List.getElem?_map]
  · intro hne
    unfold fullMessage
    have hN : ¬(((buildFileContents o files fs).1).isEmpty = true) := by
      rw [buildFileContents_fst]
      cases files with
      | nil => exact absurd rfl hne
      | cons a l => simp
    rw [if_neg hN]

/-- Witness for C7 on two concrete files: two fragments, the second being the
block of the second file, and the assembled message. -/
theorem files_order_preserved_witness :
    ((buildFileContents (fun _ => oBase) [⟨"a.txt", "text/plain"⟩, ⟨"b.xyz", ""⟩] []).1).length
      = 2 ∧
    ((buildFileContents (fun _ => oBase) [⟨"a.txt", "text/plain"⟩, ⟨"b.xyz", ""⟩] []).1)[1]?
      = some ("File: " ++ "b.xyz" ++ "\n" ++ extractedText ⟨"b.xyz", ""⟩ oBase) ∧
    fullMessage "Analyze these" (fun _ => oBase) [⟨"a.txt", "text/plain"⟩, ⟨"b.xyz", ""⟩] []
      = "Analyze these" ++ "\n\nAttached files content:\n" ++
        joinSep "\n\n"
          (buildFileContents (fun _ => oBase) [⟨"a.txt", "text/plain"⟩, ⟨"b.xyz", ""⟩] []).1 :=
  ⟨(files_order_preserved "Analyze these" (fun _ => oBase)
      [⟨"a.txt", "text/plain"⟩, ⟨"b.xyz", ""⟩] []).1,
   (files_order_preserved "Analyze these" (fun _ => oBase)
      [⟨"a.txt", "text/plain"⟩, ⟨"b.xyz", ""⟩] []).2.1 1,
   (files_order_preserved "Analyze these" (fun _ => oBase)
      [⟨"a.txt", "text/plain"⟩, ⟨"b.xyz", ""⟩] []).2.2 (by decide)⟩

/-- Claim C8 counterexample: a request whose most recent USER message asks
`who built you` but whose final message has role assistant.  The code only
inspects the final message, so it calls the provider and returns its reply
instead of short-circuiting with the attribution string. -/
theorem chat_most_recent_user_rule_fails :
    lastUserMessage [⟨"user", "Who built you?"⟩, ⟨"assistant", "All good."⟩]
      = some ⟨"user", "Who built you?"⟩ ∧
    strContainsSub (lowerStr "Who built you?") "who built you" = true ∧
    chatEndpoint [⟨"user", "Who built you?"⟩, ⟨"assistant", "All good."⟩]
        (Except.ok "PROVIDER REPLY")
      = (HttpResult.ok ⟨"assistant", "PROVIDER REPLY"⟩, true) := by
  refine ⟨by decide, by decide, by decide⟩

/-- Claim C8 (amended): when the LAST message of a nonempty conversation —
whatever its role — contains `who built you` or `who created you` after
lowering, the endpoint returns the fixed attribution string and never calls
the provider. -/
theorem chat_last_message_attribution (msgs : List Message)
    (provider : Except String String) (m0 : Message) (rest : List Message)
    (hm : msgs = m0 :: rest)
    (hc : (strContainsSub (lowerStr ((m0 :: rest).getLastD ⟨"", ""⟩).content) "who built you"
        || strContainsSub (lowerStr ((m0 :: rest).getLastD ⟨"", ""⟩).content) "who created you")
      = true) :
    chatEndpoint msgs provider = (HttpResult.ok ⟨"assistant", attributionText⟩, false) := by
  subst hm
  have hbody : chatTryBody (m0 :: rest) provider =
      (Except.ok ⟨"assistant", attributionText⟩, false) := by
    show (if strContainsSub (lowerStr ((m0 :: rest).getLastD ⟨"", ""⟩).content) "who built you"
          || strContainsSub (lowerStr ((m0 :: rest).getLastD ⟨"", ""⟩).content) "who created you" then
        ((Except.ok ⟨"assistant", attributionText⟩ : Except ChatExc Message), false)
      else
        match provider with
        | Except.ok content => (Except.ok ⟨"assistant", content⟩, true)
        | Except.error msg => (Except.error (ChatExc.valueErr msg), true)) =
      (Except.ok ⟨"assistant", attributionText⟩, false)
    rw [if_pos hc]
  unfold chatEndpoint
  rw [hbody]

/-- Witness for the amended C8: a single creator question short-circuits even
when the provider would fail. -/
theorem chat_last_message_attribution_witness :
    chatEndpoint [⟨"user", "Who created you?"⟩] (Except.error "provider down")
      = (HttpResult.ok ⟨"assistant", attributionText⟩, false) :=
  chat_last_message_attribution _ _ ⟨"user", "Who created you?"⟩ [] rfl (by decide)

/-- Claim C9: on a provider response with at least one choice, the returned
`tokens_used` is the `total_tokens` of the usage object when present, and 0
when the response omits usage data; the response text is the first choice. -/
theorem tokens_used_rule (model : String) (rd : ProviderResponse) (c : String)
    (cs : List String) (hc : rd.choices = c :: cs) :
    (processFilesResponse model rd).response = c ∧
    (∀ u t, rd.usage = some u → u.total_tokens = some t →
      (processFilesResponse model rd).tokens_used = some t) ∧
    (rd.usage = none → (processFilesResponse model rd).tokens_used = some 0) := by
  have hres : processFilesResponse model rd =
      { response := c, model := some model,
        tokens_used := some (match rd.usage with
          | some u => u.total_tokens.getD 0
          | none => 0) } := by
    unfold processFilesResponse
    rw [hc]
  refine ⟨?_, ?_, ?_⟩
  · rw [hres]
  · intro u t hu ht
    rw [hres, hu]
    show some (u.total_tokens.getD 0) = some t
    rw [ht]
    rfl
  · intro hn
    rw [hres, hn]

/-- Witness for C9 with usage present and with usage absent. -/
theorem tokens_used_rule_witness :
    (processFilesResponse "openrouter-model"
      { choices := ["EXECUTIVE SUMMARY"], usage := some ⟨some 321⟩ }).tokens_used
      = some 321 ∧
    (processFilesResponse "openrouter-model"
      { choices := ["EXECUTIVE SUMMARY"], usage := none }).tokens_used = some 0 :=
  ⟨(tokens_used_rule "openrouter-model"
      { choices := ["EXECUTIVE SUMMARY"], usage := some ⟨some 321⟩ } "EXECUTIVE SUMMARY" []
      rfl).2.1 ⟨some 321⟩ 321 rfl rfl,
   (tokens_used_rule "openrouter-model"
      { choices := ["EXECUTIVE SUMMARY"], usage := none } "EXECUTIVE SUMMARY" []
      rfl).2.2 rfl⟩
